import Mathlib

/-!
Shallow embedding of the primevideo-to-simkl-csv-exporter core: the metadata
provider response conversions (src/metadata/clients/{tmdb,tvdb,simkl}.rs), the
TVDB token session (src/metadata/clients/tvdb.rs), and the login verification
logic (src/scraping/login.rs), together with theorems checking the design
document against this embedding.
-/

namespace PrimeVideoSimkl

/-! ## String utilities

Rust `str::contains(pattern)` is substring containment; we embed it on
character lists and prove the declarative characterization below. -/

/-- Check whether `needle` is a prefix of `hay` (character lists). -/
def prefixCheck : List Char → List Char → Bool
  | [], _ => true
  | _ :: _, [] => false
  | a :: n, b :: h => a == b && prefixCheck n h

/-- Check whether `needle` occurs as a contiguous substring of `hay`
(character lists); embeds Rust `str::contains`. -/
def containsSub : List Char → List Char → Bool
  | [], needle => needle.isEmpty
  | hay@(_ :: t), needle => prefixCheck needle hay || containsSub t needle

/-- Substring containment on strings, the embedding of Rust `str::contains`. -/
def strContains (hay needle : String) : Bool :=
  containsSub hay.toList needle.toList

/-- Declarative substring containment: `needle` occurs inside `hay`. -/
def ContainsStr (hay needle : String) : Prop :=
  ∃ p q, hay.toList = p ++ needle.toList ++ q

/-- Suffix test on strings, used to state the spec's "domain suffix" notion. -/
def strEndsWith (hay needle : String) : Bool :=
  prefixCheck needle.toList.reverse hay.toList.reverse

theorem prefixCheck_iff (n h : List Char) :
    prefixCheck n h = true ↔ ∃ t, h = n ++ t := by
  induction n generalizing h with
  | nil => simp [prefixCheck]
  | cons a n ih =>
    cases h with
    | nil =>
      simp [prefixCheck]
    | cons b h =>
      simp only [prefixCheck, Bool.and_eq_true, beq_iff_eq, ih]
      constructor
      · rintro ⟨rfl, t, rfl⟩
        exact ⟨t, rfl⟩
      · rintro ⟨t, ht⟩
        obtain ⟨rfl, rfl⟩ : b = a ∧ h = n ++ t := by
          simpa using ht
        exact ⟨rfl, t, rfl⟩

theorem containsSub_iff (h n : List Char) :
    containsSub h n = true ↔ ∃ p q, h = p ++ n ++ q := by
  induction h with
  | nil =>
    simp only [containsSub, List.isEmpty_iff]
    constructor
    · rintro rfl
      exact ⟨[], [], rfl⟩
    · rintro ⟨p, q, hpq⟩
      rcases List.append_eq_nil.mp (List.append_eq_nil.mp hpq.symm).1 with ⟨_, h2⟩
      exact h2
  | cons c t ih =>
    simp only [containsSub, Bool.or_eq_true, prefixCheck_iff, ih]
    constructor
    · rintro (⟨s, hs⟩ | ⟨p, q, rfl⟩)
      · exact ⟨[], s, by simpa using hs⟩
      · exact ⟨c :: p, q, rfl⟩
    · rintro ⟨p, q, hpq⟩
      cases p with
      | nil =>
        exact Or.inl ⟨q, by simpa using hpq⟩
      | cons x p =>
        obtain ⟨-, rfl⟩ : x = c ∧ t = p ++ n ++ q := by
          have := hpq
          simp only [List.cons_append, List.cons.injEq] at this
          exact ⟨this.1.symm, this.2⟩
        exact Or.inr ⟨p, q, rfl⟩

theorem strContains_iff (hay needle : String) :
    strContains hay needle = true ↔ ContainsStr hay needle :=
  containsSub_iff hay.toList needle.toList

theorem strContains_eq_false_iff (hay needle : String) :
    strContains hay needle = false ↔ ¬ ContainsStr hay needle := by
  rw [← strContains_iff]
  cases strContains hay needle <;> simp

/-! ## Data model (src/metadata/models.rs, crate::models) -/

/-- crate::models::MediaType, the closed media-type enum. -/
inductive MediaType where
  | Movie
  | Tv
deriving DecidableEq, Repr

/-- src/metadata/models.rs `MediaIds`; the client conversions additionally
populate an `imdb` entry, which the conversions in tvdb.rs and simkl.rs
construct, so it is carried here as well.  All entries default to `none`
(Rust `Default`). -/
structure MediaIds where
  simkl : Option String := none
  tvdb : Option String := none
  tmdb : Option String := none
  mal : Option String := none
  imdb : Option String := none
deriving DecidableEq, Repr

/-- src/metadata/models.rs `MetadataResult`. -/
structure MetadataResult where
  ids : MediaIds
  title : String
  year : Option String
  media_type : MediaType
deriving DecidableEq, Repr

/-- Modelled from the spec: the error taxonomy of section 7.  The crate's
`AppError` lives in src/error.rs, which is absent from the snapshot; the
variants here are exactly the ones the client and login sources construct. -/
inductive AppError where
  | transportError (msg : String)
  | metadataError (msg : String)
  | authError (msg : String)
  | browserError (msg : String)
  | configError (msg : String)
deriving DecidableEq, Repr

/-! ## Year extraction

Every conversion computes
`date.and_then(|d| d.split('-').next().map(|s| s.to_string()))`:
the characters of the date before the first `-` (the first piece of
`split('-')` always exists). -/

/-- Characters before the first `'-'`; embeds Rust `d.split('-').next()`
for the one piece that is consumed. -/
def takeUntilDash : List Char → List Char
  | [] => []
  | c :: t => if c = '-' then [] else c :: takeUntilDash t

/-- `d.split('-').next().map(|s| s.to_string())`: always `some`, holding the
prefix of `d` before the first `-`. -/
def splitFirstPiece (d : String) : Option String :=
  some (String.mk (takeUntilDash d.toList))

/-- The year-extraction pipeline shared by the conversions:
`date.as_ref().and_then(|d| d.split('-').next().map(|s| s.to_string()))`. -/
def yearFromDate (date : Option String) : Option String :=
  date.bind splitFirstPiece

/-! ## TMDB client response shapes and conversions (src/metadata/clients/tmdb.rs) -/

/-- tmdb.rs `TmdbItem` (search response entry); `title`/`name` are plain
strings in the Rust struct, the dates and declared media type optional. -/
structure TmdbItem where
  id : Int
  title : String
  name : String
  release_date : Option String
  first_air_date : Option String
  media_type : Option String
deriving DecidableEq, Repr

/-- tmdb.rs `TmdbExternalIds`. -/
structure TmdbExternalIds where
  imdb_id : Option String
  tvdb_id : Option Int
deriving DecidableEq, Repr

/-- tmdb.rs `TmdbDetailsResponse`. -/
structure TmdbDetailsResponse where
  id : Int
  title : Option String
  name : Option String
  release_date : Option String
  first_air_date : Option String
  external_ids : TmdbExternalIds
deriving DecidableEq, Repr

/-- tmdb.rs `impl From<TmdbItem> for MetadataResult`.  The declared media
type is matched against the literals `"tv"` and `"movie"`; anything else,
including an absent declaration, falls to the `_ => Movie` default. -/
def TmdbItem.toMetadataResult (item : TmdbItem) : MetadataResult :=
  { ids := { tmdb := some (toString item.id) }
    title := if item.title.isEmpty then item.name else item.title
    year := yearFromDate (item.release_date.or item.first_air_date)
    media_type :=
      match item.media_type with
      | some s => if s = "tv" then MediaType.Tv
                  else if s = "movie" then MediaType.Movie
                  else MediaType.Movie
      | none => MediaType.Movie }

/-- tmdb.rs `impl From<TmdbDetailsResponse> for MetadataResult`.  `has_title`
is `title.is_some()`, the title itself `title.or(name).unwrap_or_default()`. -/
def TmdbDetailsResponse.toMetadataResult (d : TmdbDetailsResponse) : MetadataResult :=
  { ids := { tmdb := some (toString d.id)
             tvdb := d.external_ids.tvdb_id.map toString }
    title := (d.title.or d.name).getD ""
    year := yearFromDate (d.release_date.or d.first_air_date)
    media_type := if d.title.isSome then MediaType.Movie else MediaType.Tv }

/-! ## TVDB client response shapes and conversions (src/metadata/clients/tvdb.rs) -/

/-- tvdb.rs `TvdbSearchItem`. -/
structure TvdbSearchItem where
  id : Int
  series_name : String
  first_aired : Option String
deriving DecidableEq, Repr

/-- tvdb.rs `TvdbDetailsItem`. -/
structure TvdbDetailsItem where
  id : Int
  series_name : String
  first_aired : Option String
  imdb_id : Option String
deriving DecidableEq, Repr

/-- tvdb.rs `impl From<TvdbSearchItem> for MetadataResult`. -/
def TvdbSearchItem.toMetadataResult (item : TvdbSearchItem) : MetadataResult :=
  { ids := { tvdb := some (toString item.id) }
    title := item.series_name
    year := yearFromDate item.first_aired
    media_type := MediaType.Tv }

/-- tvdb.rs `impl From<TvdbDetailsItem> for MetadataResult`. -/
def TvdbDetailsItem.toMetadataResult (item : TvdbDetailsItem) : MetadataResult :=
  { ids := { tvdb := some (toString item.id)
             imdb := item.imdb_id }
    title := item.series_name
    year := yearFromDate item.first_aired
    media_type := MediaType.Tv }

/-! ## Simkl client response shapes and conversions (src/metadata/clients/simkl.rs) -/

/-- simkl.rs `SimklIds`; the provider's `simkl` identifier is a plain string,
the rest optional. -/
structure SimklIds where
  simkl : String
  imdb : Option String
  tmdb : Option String
  tvdb : Option String
deriving DecidableEq, Repr

/-- simkl.rs `SimklSearchItem`. -/
structure SimklSearchItem where
  title : String
  year : Option String
  ids : SimklIds
deriving DecidableEq, Repr

/-- simkl.rs `SimklDetailsResponse`. -/
structure SimklDetailsResponse where
  title : String
  year : Option String
  ids : SimklIds
deriving DecidableEq, Repr

/-- simkl.rs `impl From<SimklSearchItem> for MetadataResult`: every identifier
is passed through verbatim, the media type a placeholder Movie. -/
def SimklSearchItem.toMetadataResult (item : SimklSearchItem) : MetadataResult :=
  { ids := { simkl := some item.ids.simkl
             imdb := item.ids.imdb
             tmdb := item.ids.tmdb
             tvdb := item.ids.tvdb }
    title := item.title
    year := item.year
    media_type := MediaType.Movie }

/-- simkl.rs `impl From<SimklDetailsResponse> for MetadataResult`. -/
def SimklDetailsResponse.toMetadataResult (d : SimklDetailsResponse) : MetadataResult :=
  { ids := { simkl := some d.ids.simkl
             imdb := d.ids.imdb
             tmdb := d.ids.tmdb
             tvdb := d.ids.tvdb }
    title := d.title
    year := d.year
    media_type := MediaType.Movie }

/-! ## Decimal rendering of numeric identifiers is never empty

The i32 identifiers are embedded as `Int`, and Rust `to_string()` as Lean
`toString`; both produce at least one character. -/

theorem toDigitsCore_eq_append (b : Nat) :
    ∀ (f n : Nat) (acc : List Char), ∃ pre, Nat.toDigitsCore b f n acc = pre ++ acc := by
  intro f
  induction f with
  | zero => exact fun n acc => ⟨[], rfl⟩
  | succ f ih =>
    intro n acc
    simp only [Nat.toDigitsCore]
    by_cases h : n / b = 0
    · exact ⟨[(n % b).digitChar], by simp [h]⟩
    · obtain ⟨pre, hp⟩ := ih (n / b) ((n % b).digitChar :: acc)
      exact ⟨pre ++ [(n % b).digitChar], by simp [h, hp]⟩

theorem toDigits_ne_nil (b n : Nat) : Nat.toDigits b n ≠ [] := by
  unfold Nat.toDigits
  simp only [Nat.toDigitsCore]
  by_cases h : n / b = 0
  · simp [h]
  · obtain ⟨pre, hp⟩ := toDigitsCore_eq_append b n (n / b) [(n % b).digitChar]
    simp [h, hp]

theorem natRepr_ne_empty (n : Nat) : Nat.repr n ≠ "" := by
  unfold Nat.repr
  intro h
  exact toDigits_ne_nil 10 n (congrArg String.data h)

theorem int_toString_ne_empty (i : Int) : toString i ≠ "" := by
  cases i with
  | ofNat n => exact natRepr_ne_empty n
  | negSucc n =>
    intro h
    have h2 : "-" ++ (n + 1).repr = "" := h
    have h3 := congrArg String.length h2
    simp [String.length_append] at h3
    exact absurd h3.1 (by decide)

/-! ## TVDB token session (src/metadata/clients/tvdb.rs)

The HTTP exchanges are modelled by an environment of responses indexed by how
many requests of that kind were already issued; the mutable client state is
the cached bearer token; a world record carries the request counters and the
trace of issued requests (effects on the network are real and survive any
trick the client plays with its own memory).  The recursion of
`search_internal`/`get_details_internal` is metered by explicit fuel: a
`none` outcome means the recursion was still running when the fuel ran out. -/

/-- A TVDB login response: HTTP status and the `{token}` body. -/
structure TvdbLoginResp where
  status : Nat
  token : String
deriving DecidableEq, Repr

/-- A TVDB search response: HTTP status and the parsed `data` array used when
the status is a success. -/
structure TvdbSearchResp where
  status : Nat
  data : List TvdbSearchItem
deriving DecidableEq, Repr

/-- A TVDB details response: HTTP status and the parsed `data` object. -/
structure TvdbDetailsResp where
  status : Nat
  data : TvdbDetailsItem
deriving DecidableEq, Repr

/-- The network as seen by the TVDB client: the response to the i-th request
of each kind. -/
structure TvdbHttpEnv where
  login : Nat → TvdbLoginResp
  searchResp : Nat → TvdbSearchResp
  detailsResp : Nat → TvdbDetailsResp

/-- The client's own mutable state: the cached bearer token
(`access_token: Option<String>`). -/
structure TvdbClientState where
  access_token : Option String
deriving DecidableEq, Repr

/-- One request issued on the wire. -/
inductive TvdbRequest where
  | login
  | searchGet (bearer : String)
  | detailsGet (bearer : String)
deriving DecidableEq, Repr

/-- Request counters and the trace of issued requests. -/
structure TvdbWorld where
  loginN : Nat
  getN : Nat
  trace : List TvdbRequest
deriving DecidableEq, Repr

/-- reqwest `StatusCode::is_success`: the 2xx range. -/
def statusIsSuccess (code : Nat) : Bool :=
  200 ≤ code && code < 300

/-- tvdb.rs `TvdbClient::authenticate`: POST `login`, cache the token on
success, `AuthError` otherwise. -/
def TvdbClient.authenticate (env : TvdbHttpEnv) (st : TvdbClientState) (w : TvdbWorld) :
    Except AppError Unit × TvdbClientState × TvdbWorld :=
  let r := env.login w.loginN
  let w' : TvdbWorld :=
    { loginN := w.loginN + 1, getN := w.getN, trace := w.trace ++ [TvdbRequest.login] }
  if statusIsSuccess r.status then
    (Except.ok (), { access_token := some r.token }, w')
  else
    (Except.error (AppError.authError "TVDB authentication failed"), st, w')

/-- tvdb.rs `TvdbClient::search_internal`: authenticate when no token is
cached, issue the GET, and on a 401 reauthenticate and recurse on itself
(the source has no retry counter). -/
def TvdbClient.search_internal (env : TvdbHttpEnv) (title : String) (media_type : MediaType) :
    Nat → TvdbClientState → TvdbWorld →
      Option (Except AppError (List MetadataResult) × TvdbClientState × TvdbWorld)
  | 0, _, _ => none
  | fuel + 1, st, w =>
    match (if st.access_token.isNone then TvdbClient.authenticate env st w
           else (Except.ok (), st, w)) with
    | (Except.error e, st', w') => some (Except.error e, st', w')
    | (Except.ok (), st', w') =>
      let bearer := st'.access_token.getD ""
      let r := env.searchResp w'.getN
      let w'' : TvdbWorld :=
        { loginN := w'.loginN, getN := w'.getN + 1,
          trace := w'.trace ++ [TvdbRequest.searchGet bearer] }
      if statusIsSuccess r.status then
        some (Except.ok (r.data.map TvdbSearchItem.toMetadataResult), st', w'')
      else if r.status = 401 then
        match TvdbClient.authenticate env st' w'' with
        | (Except.error e, st2, w2) => some (Except.error e, st2, w2)
        | (Except.ok (), st2, w2) =>
          TvdbClient.search_internal env title media_type fuel st2 w2
      else
        some (Except.error
          (AppError.metadataError ("TVDB API error: " ++ toString r.status)), st', w'')

/-- tvdb.rs `TvdbClient::get_details_internal`: same shape as
`search_internal` against the `series/{id}` endpoint. -/
def TvdbClient.get_details_internal (env : TvdbHttpEnv) (tvdb_id : String) (media_type : MediaType) :
    Nat → TvdbClientState → TvdbWorld →
      Option (Except AppError MetadataResult × TvdbClientState × TvdbWorld)
  | 0, _, _ => none
  | fuel + 1, st, w =>
    match (if st.access_token.isNone then TvdbClient.authenticate env st w
           else (Except.ok (), st, w)) with
    | (Except.error e, st', w') => some (Except.error e, st', w')
    | (Except.ok (), st', w') =>
      let bearer := st'.access_token.getD ""
      let r := env.detailsResp w'.getN
      let w'' : TvdbWorld :=
        { loginN := w'.loginN, getN := w'.getN + 1,
          trace := w'.trace ++ [TvdbRequest.detailsGet bearer] }
      if statusIsSuccess r.status then
        some (Except.ok r.data.toMetadataResult, st', w'')
      else if r.status = 401 then
        match TvdbClient.authenticate env st' w'' with
        | (Except.error e, st2, w2) => some (Except.error e, st2, w2)
        | (Except.ok (), st2, w2) =>
          TvdbClient.get_details_internal env tvdb_id media_type fuel st2 w2
      else
        some (Except.error
          (AppError.metadataError ("TVDB API error: " ++ toString r.status)), st', w'')

/-- tvdb.rs `impl MetadataProvider for TvdbClient`, `search`: the source runs
`search_internal` on a bitwise copy of the receiver (`std::ptr::read(self)`)
and then forgets the copy (`std::mem::forget`), so the client-state mutations
happen on the copy and are discarded, while the network effects persist; the
year argument is received but unused (`_year`). -/
def TvdbClient.search (env : TvdbHttpEnv) (title : String) (media_type : MediaType)
    (_year : Option Int) (fuel : Nat) (st : TvdbClientState) (w : TvdbWorld) :
    Option (Except AppError (List MetadataResult) × TvdbClientState × TvdbWorld) :=
  match TvdbClient.search_internal env title media_type fuel st w with
  | none => none
  | some (res, _, w') => some (res, st, w')

/-- tvdb.rs `impl MetadataProvider for TvdbClient`, `get_details`: same
receiver-copy discipline as `search`. -/
def TvdbClient.get_details (env : TvdbHttpEnv) (id : String) (media_type : MediaType)
    (fuel : Nat) (st : TvdbClientState) (w : TvdbWorld) :
    Option (Except AppError MetadataResult × TvdbClientState × TvdbWorld) :=
  match TvdbClient.get_details_internal env id media_type fuel st w with
  | none => none
  | some (res, _, w') => some (res, st, w')

/-! ## Login verification and automated login (src/scraping/login.rs)

The browser is an oracle: navigations, form fills, clicks and element
lookups answer from an environment, and the operations additionally return
the trace of browser actions they performed. The URL is observed through
`to_string()` (the full URL) and `path()` (the path component), embedded as
the two fields of `Url`. -/

/-- A URL as the login code observes it: `current_url.to_string()` and
`current_url.path()`. -/
structure Url where
  full : String
  path : String
deriving DecidableEq, Repr

/-- One browser-automation action, for traces. -/
inductive BrowserAction where
  | goto (url : String)
  | fill (selector value : String)
  | click (selector : String)
  | find (selector : String)
  | currentUrl
deriving DecidableEq, Repr

/-- The browser as an oracle: outcome of each action kind. An `Except.error`
carries the message the Rust code would wrap into `BrowserError`. -/
structure BrowserEnv where
  goto : String → Except String Unit
  fill : String → String → Except String Unit
  click : String → Except String Unit
  find : String → Bool
  currentUrl : Except String Url

/-- login.rs `manual_login`, the verification tail after the operator presses
Enter (lines 86-117): accept when the full URL contains `watch-history`;
otherwise report a login-page `AuthError` when the path contains
`signin`/`/login`/`/auth`, and a navigate-here `AuthError` otherwise. -/
def manual_login_verify (u : Url) : Except AppError Unit :=
  let is_on_watch_history := strContains u.full "watch-history"
  let is_on_login_page := strContains u.path "signin" ||
    strContains u.path "/login" || strContains u.path "/auth"
  if !is_on_watch_history then
    if is_on_login_page then
      Except.error (AppError.authError "Please log in to Prime Video first")
    else
      Except.error (AppError.authError "Please navigate to your Prime Video watch history page")
  else
    Except.ok ()

/-- login.rs selector list `page_content_checks` inside `is_logged_in`. -/
def page_content_checks : List String :=
  ["[data-testid=\x27watch-history\x27]",
   ".watch-history",
   "[data-automation-id=\x27watch-history\x27]",
   "[data-testid=\x27account-menu\x27]",
   ".account-menu",
   "[data-automation-id=\x27account-menu\x27]",
   "[data-testid=\x27av-nav-main\x27]",
   ".av-nav-main",
   "input[name=\x27email\x27]",
   "input[name=\x27password\x27]"]

/-- The selector loop of `is_logged_in`: every selector is looked up in
order; finding one that names `email` or `password` means a login form is
still on the page and the user is not logged in. -/
def loginFormScan (env : BrowserEnv) : List String → Bool × List BrowserAction
  | [] => (true, [])
  | sel :: rest =>
    if env.find sel && (strContains sel "email" || strContains sel "password") then
      (false, [BrowserAction.find sel])
    else
      let r := loginFormScan env rest
      (r.1, BrowserAction.find sel :: r.2)

/-- login.rs `is_logged_in` (lines 166-212): the URL gate tests the full URL
string for `watch-history`, `signin` and `auth` (no path restriction and no
`/login` test), then the selector loop runs. -/
def is_logged_in (env : BrowserEnv) : Except AppError Bool × List BrowserAction :=
  match env.currentUrl with
  | Except.error e => (Except.error (AppError.browserError e), [BrowserAction.currentUrl])
  | Except.ok u =>
    let url_check := strContains u.full "watch-history" &&
      !(strContains u.full "signin") && !(strContains u.full "auth")
    if !url_check then
      (Except.ok false, [BrowserAction.currentUrl])
    else
      let r := loginFormScan env page_content_checks
      (Except.ok r.1, BrowserAction.currentUrl :: r.2)

/-- login.rs `automated_login` regional endpoint choice (lines 126-134):
substring tests on the whole credential email, in order. -/
def amazonDomainFor (email : String) : String :=
  if strContains email ".co.uk" then "amazon.co.uk"
  else if strContains email ".de" then "amazon.de"
  else if strContains email ".it" then "amazon.it"
  else "amazon.com"

/-- The email-field selector of `automated_login`. -/
def emailFieldSelector : String :=
  "input[name=\x27email\x27], input[name=\x27ap_email\x27]"

/-- The password-field selector of `automated_login`. -/
def passwordFieldSelector : String :=
  "input[name=\x27password\x27], input[name=\x27ap_password\x27]"

/-- The two-factor challenge marker selector of `automated_login`. -/
def mfaSelector : String :=
  "#auth-mfa-otpcode, .cvf-widget-input-code"

/-- login.rs `automated_login` (lines 120-163): navigate to the regional
sign-in endpoint, fill email, continue, fill password, submit, fail fast on a
two-factor marker, and finally verify via `is_logged_in`. -/
def automated_login (env : BrowserEnv) (email password : String) :
    Except AppError Unit × List BrowserAction :=
  let login_url := "https://www." ++ amazonDomainFor email ++ "/ap/signin"
  let t1 := [BrowserAction.goto login_url]
  match env.goto login_url with
  | Except.error e => (Except.error (AppError.browserError e), t1)
  | Except.ok _ =>
    let t2 := t1 ++ [BrowserAction.fill emailFieldSelector email]
    match env.fill emailFieldSelector email with
    | Except.error e => (Except.error (AppError.browserError e), t2)
    | Except.ok _ =>
      let t3 := t2 ++ [BrowserAction.click "#continue"]
      match env.click "#continue" with
      | Except.error e => (Except.error (AppError.browserError e), t3)
      | Except.ok _ =>
        let t4 := t3 ++ [BrowserAction.fill passwordFieldSelector password]
        match env.fill passwordFieldSelector password with
        | Except.error e => (Except.error (AppError.browserError e), t4)
        | Except.ok _ =>
          let t5 := t4 ++ [BrowserAction.click "#signInSubmit"]
          match env.click "#signInSubmit" with
          | Except.error e => (Except.error (AppError.browserError e), t5)
          | Except.ok _ =>
            let t6 := t5 ++ [BrowserAction.find mfaSelector]
            if env.find mfaSelector then
              (Except.error (AppError.authError "2FA detected - manual login required"), t6)
            else
              match is_logged_in env with
              | (Except.error e, tr) => (Except.error e, t6 ++ tr)
              | (Except.ok true, tr) => (Except.ok (), t6 ++ tr)
              | (Except.ok false, tr) =>
                (Except.error (AppError.authError "Automated login failed"), t6 ++ tr)

/-! ## Theorems -/

theorem statusIsSuccess_200 : statusIsSuccess 200 = true := rfl

theorem statusIsSuccess_401 : statusIsSuccess 401 = false := rfl

/-- A TVDB network where every login succeeds with token `"tok"` and every
authenticated GET answers 401. -/
def tvdbEnv401 : TvdbHttpEnv :=
  { login := fun _ => { status := 200, token := "tok" }
    searchResp := fun _ => { status := 401, data := [] }
    detailsResp := fun _ =>
      { status := 401,
        data := { id := 0, series_name := "", first_aired := none, imdb_id := none } } }

theorem tvdbEnv401_login (n : Nat) :
    tvdbEnv401.login n = { status := 200, token := "tok" } := rfl

theorem tvdbEnv401_searchResp (n : Nat) :
    tvdbEnv401.searchResp n = { status := 401, data := [] } := rfl

theorem tvdbEnv401_detailsResp (n : Nat) :
    tvdbEnv401.detailsResp n =
      { status := 401,
        data := { id := 0, series_name := "", first_aired := none, imdb_id := none } } := rfl

/-- C1: the claim says a 401 on an authenticated TVDB request causes exactly
one reauthentication and one retry, a second 401 ending the operation with a
`MetadataError`.  The code instead recurses without any retry counter: under
persistently-401 responses (with logins succeeding) neither `search_internal`
nor `get_details_internal` ever returns a result, for any amount of fuel —
in particular no `MetadataError` is ever produced. -/
theorem tvdb_persistent_401_never_terminates :
    (∀ fuel st w,
      TvdbClient.search_internal tvdbEnv401 "Inception" MediaType.Tv fuel st w = none) ∧
    (∀ fuel st w,
      TvdbClient.get_details_internal tvdbEnv401 "42" MediaType.Tv fuel st w = none) := by
  constructor
  · intro fuel
    induction fuel with
    | zero => intro st w; rfl
    | succ fuel ih =>
      intro st w
      cases hst : st.access_token with
      | none =>
        simp [TvdbClient.search_internal, TvdbClient.authenticate, tvdbEnv401_login,
          tvdbEnv401_searchResp, statusIsSuccess_200, statusIsSuccess_401, hst, ih]
      | some tok =>
        simp [TvdbClient.search_internal, TvdbClient.authenticate, tvdbEnv401_login,
          tvdbEnv401_searchResp, statusIsSuccess_200, statusIsSuccess_401, hst, ih]
  · intro fuel
    induction fuel with
    | zero => intro st w; rfl
    | succ fuel ih =>
      intro st w
      cases hst : st.access_token with
      | none =>
        simp [TvdbClient.get_details_internal, TvdbClient.authenticate, tvdbEnv401_login,
          tvdbEnv401_detailsResp, statusIsSuccess_200, statusIsSuccess_401, hst, ih]
      | some tok =>
        simp [TvdbClient.get_details_internal, TvdbClient.authenticate, tvdbEnv401_login,
          tvdbEnv401_detailsResp, statusIsSuccess_200, statusIsSuccess_401, hst, ih]

/-- A TVDB network where every login succeeds with token `"tok"` and every
search GET succeeds with an empty result list. -/
def tvdbEnvOk : TvdbHttpEnv :=
  { login := fun _ => { status := 200, token := "tok" }
    searchResp := fun _ => { status := 200, data := [] }
    detailsResp := fun _ =>
      { status := 200,
        data := { id := 0, series_name := "", first_aired := none, imdb_id := none } } }

/-- C2: the claim says the bearer token obtained during one operation is
cached on the instance and every later operation reuses it with no further
authentication.  Because the trait-level `search` mutates only a forgotten
bitwise copy of the receiver, the instance still holds no token after a
fully successful first call, and a second call performs a second login
exchange: the trace of two consecutive searches holds two login POSTs. -/
theorem tvdb_token_discarded_between_calls :
    TvdbClient.search tvdbEnvOk "Inception" MediaType.Tv none 4
        { access_token := none } { loginN := 0, getN := 0, trace := [] }
      = some (Except.ok [], { access_token := none },
          { loginN := 1, getN := 1,
            trace := [TvdbRequest.login, TvdbRequest.searchGet "tok"] }) ∧
    TvdbClient.search tvdbEnvOk "Inception" MediaType.Tv none 4
        { access_token := none }
        { loginN := 1, getN := 1,
          trace := [TvdbRequest.login, TvdbRequest.searchGet "tok"] }
      = some (Except.ok [], { access_token := none },
          { loginN := 2, getN := 2,
            trace := [TvdbRequest.login, TvdbRequest.searchGet "tok",
                      TvdbRequest.login, TvdbRequest.searchGet "tok"] }) := by
  exact ⟨rfl, rfl⟩

/-- C10: `TvdbClient::search` receives its year argument as `_year` and never
reads it: the whole outcome — result, client state and issued requests — is
identical for any two year values. -/
theorem tvdb_search_ignores_year :
    ∀ (env : TvdbHttpEnv) (title : String) (mt : MediaType) (y₁ y₂ : Option Int)
      (fuel : Nat) (st : TvdbClientState) (w : TvdbWorld),
      TvdbClient.search env title mt y₁ fuel st w =
        TvdbClient.search env title mt y₂ fuel st w :=
  fun _ _ _ _ _ _ _ _ => rfl

/-- The prefix before the first dash: `takeUntilDash l` is an initial segment
of `l` containing no dash, and what follows it is empty or starts with the
first dash. -/
theorem takeUntilDash_spec (l : List Char) :
    (∃ rest, l = takeUntilDash l ++ rest ∧ (rest = [] ∨ ∃ r, rest = '-' :: r)) ∧
    '-' ∉ takeUntilDash l := by
  induction l with
  | nil => exact ⟨⟨[], rfl, Or.inl rfl⟩, by simp [takeUntilDash]⟩
  | cons c t ih =>
    by_cases hc : c = '-'
    · subst hc
      exact ⟨⟨'-' :: t, by simp [takeUntilDash], Or.inr ⟨t, rfl⟩⟩, by simp [takeUntilDash]⟩
    · obtain ⟨⟨rest, hr, hro⟩, hnot⟩ := ih
      refine ⟨⟨rest, ?_, hro⟩, ?_⟩
      · simp only [takeUntilDash, if_neg hc, List.cons_append, List.cons.injEq, true_and]
        exact hr
      · simp only [takeUntilDash, if_neg hc, List.mem_cons, not_or]
        exact ⟨fun h => hc h.symm, hnot⟩

/-- C4 fails as stated: on a date field with no dash the extracted year is
the whole field, not its first four characters.  The claim predicts
`some "2008"` for the date `"20080120"`; the conversion yields the whole
string. -/
theorem year_whole_prefix_cex :
    (TmdbItem.toMetadataResult
      { id := 603, title := "Inception", name := "",
        release_date := some "20080120", first_air_date := none,
        media_type := some "movie" }).year = some "20080120" ∧
    some "20080120" ≠ some "2008" := ⟨rfl, by decide⟩

/-- C4 amended: the extracted year is the entire portion of the present date
field preceding the first `-` (not just its first four characters), with the
release date preferred over the first-air date; an absent date yields `none`,
and a TVDB search item with `firstAired` null yields year `none` together
with `ids.tvdb` holding the rendered item id.  The final conjunct pins the
meaning of `takeUntilDash`: a dash-free initial segment of the input followed
by nothing or by the first dash. -/
theorem year_extraction_spec :
    (∀ (item : TmdbItem) (d : String), item.release_date = some d →
      (TmdbItem.toMetadataResult item).year = some (String.mk (takeUntilDash d.toList))) ∧
    (∀ (item : TmdbItem) (d : String), item.release_date = none →
      item.first_air_date = some d →
      (TmdbItem.toMetadataResult item).year = some (String.mk (takeUntilDash d.toList))) ∧
    (∀ item : TmdbItem, item.release_date = none → item.first_air_date = none →
      (TmdbItem.toMetadataResult item).year = none) ∧
    (∀ (item : TvdbSearchItem) (d : String), item.first_aired = some d →
      (TvdbSearchItem.toMetadataResult item).year = some (String.mk (takeUntilDash d.toList))) ∧
    (∀ item : TvdbSearchItem, item.first_aired = none →
      (TvdbSearchItem.toMetadataResult item).year = none ∧
      (TvdbSearchItem.toMetadataResult item).ids.tvdb = some (toString item.id)) ∧
    (∀ l : List Char,
      (∃ rest, l = takeUntilDash l ++ rest ∧ (rest = [] ∨ ∃ r, rest = '-' :: r)) ∧
      '-' ∉ takeUntilDash l) := by
  refine ⟨?_, ?_, ?_, ?_, ?_, takeUntilDash_spec⟩
  · intro item d h
    simp [TmdbItem.toMetadataResult, yearFromDate, splitFirstPiece, h]
  · intro item d h1 h2
    simp [TmdbItem.toMetadataResult, yearFromDate, splitFirstPiece, h1, h2]
  · intro item h1 h2
    simp [TmdbItem.toMetadataResult, yearFromDate, splitFirstPiece, h1, h2]
  · intro item d h
    simp [TvdbSearchItem.toMetadataResult, yearFromDate, splitFirstPiece, h]
  · intro item h
    exact ⟨by simp [TvdbSearchItem.toMetadataResult, yearFromDate, splitFirstPiece, h], rfl⟩

/-- C4 witness: the amended statement evaluated on concrete items — a dashed
TMDB release date, a first-air fallback, absent dates, and the TVDB
null-`firstAired` example of the design document. -/
theorem year_extraction_spec_witness :
    (TmdbItem.toMetadataResult
      { id := 603, title := "Inception", name := "",
        release_date := some "2010-07-16", first_air_date := none,
        media_type := some "movie" }).year = some "2010" ∧
    (TmdbItem.toMetadataResult
      { id := 456, title := "", name := "Breaking Bad",
        release_date := none, first_air_date := some "2008-01-20",
        media_type := some "tv" }).year = some "2008" ∧
    (TmdbItem.toMetadataResult
      { id := 7, title := "X", name := "",
        release_date := none, first_air_date := none,
        media_type := none }).year = none ∧
    (TvdbSearchItem.toMetadataResult
      { id := 123, series_name := "Y", first_aired := none }).year = none ∧
    (TvdbSearchItem.toMetadataResult
      { id := 123, series_name := "Y", first_aired := none }).ids.tvdb = some "123" := by
  refine ⟨(year_extraction_spec.1 _ "2010-07-16" rfl).trans (by decide),
    (year_extraction_spec.2.1 _ "2008-01-20" rfl rfl).trans (by decide),
    year_extraction_spec.2.2.1 _ rfl rfl,
    (year_extraction_spec.2.2.2.2.1 _ rfl).1,
    ((year_extraction_spec.2.2.2.2.1 _ rfl).2).trans (by decide)⟩

/-- C3 fails as stated: a TMDB search item with no declared media type, an
empty movie-style title and a populated series-style name converts to
`Movie` — the fallback ignores the title fields instead of inferring
`Series`/`Tv` from them. -/
theorem tmdb_media_type_fallback_cex :
    (TmdbItem.toMetadataResult
      { id := 456, title := "", name := "Breaking Bad",
        release_date := none, first_air_date := some "2008-01-20",
        media_type := none }).media_type = MediaType.Movie ∧
    MediaType.Movie ≠ MediaType.Tv := by decide

/-- C3 amended: a declared `"movie"`/`"tv"` media type is trusted; any other
declaration — absent or unrecognized — makes a search item default to
`Movie` regardless of which title field is populated; the details conversion
infers from the presence (`is_some`) of the movie-style title field: present
yields `Movie`, absent yields `Tv`. -/
theorem tmdb_media_type_spec :
    (∀ item : TmdbItem, item.media_type = some "movie" →
      (TmdbItem.toMetadataResult item).media_type = MediaType.Movie) ∧
    (∀ item : TmdbItem, item.media_type = some "tv" →
      (TmdbItem.toMetadataResult item).media_type = MediaType.Tv) ∧
    (∀ (item : TmdbItem) (s : String), item.media_type = some s →
      s ≠ "movie" → s ≠ "tv" →
      (TmdbItem.toMetadataResult item).media_type = MediaType.Movie) ∧
    (∀ item : TmdbItem, item.media_type = none →
      (TmdbItem.toMetadataResult item).media_type = MediaType.Movie) ∧
    (∀ d : TmdbDetailsResponse, d.title.isSome = true →
      (TmdbDetailsResponse.toMetadataResult d).media_type = MediaType.Movie) ∧
    (∀ d : TmdbDetailsResponse, d.title = none →
      (TmdbDetailsResponse.toMetadataResult d).media_type = MediaType.Tv) := by
  refine ⟨?_, ?_, ?_, ?_, ?_, ?_⟩
  · intro item h
    simp [TmdbItem.toMetadataResult, h]
  · intro item h
    simp [TmdbItem.toMetadataResult, h]
  · intro item s h hm ht
    simp [TmdbItem.toMetadataResult, h, hm, ht]
  · intro item h
    simp [TmdbItem.toMetadataResult, h]
  · intro d h
    simp [TmdbDetailsResponse.toMetadataResult, h]
  · intro d h
    simp [TmdbDetailsResponse.toMetadataResult, h]

/-- C3 witness: the amended statement evaluated on concrete items covering a
declared movie, a declared tv, an unrecognized declaration, an absent
declaration, and details responses with present and absent titles. -/
theorem tmdb_media_type_spec_witness :
    (TmdbItem.toMetadataResult
      { id := 1, title := "A", name := "", release_date := none,
        first_air_date := none, media_type := some "movie" }).media_type = MediaType.Movie ∧
    (TmdbItem.toMetadataResult
      { id := 2, title := "", name := "B", release_date := none,
        first_air_date := none, media_type := some "tv" }).media_type = MediaType.Tv ∧
    (TmdbItem.toMetadataResult
      { id := 3, title := "", name := "C", release_date := none,
        first_air_date := none, media_type := some "person" }).media_type = MediaType.Movie ∧
    (TmdbItem.toMetadataResult
      { id := 4, title := "", name := "D", release_date := none,
        first_air_date := none, media_type := none }).media_type = MediaType.Movie ∧
    (TmdbDetailsResponse.toMetadataResult
      { id := 5, title := some "E", name := none, release_date := none,
        first_air_date := none,
        external_ids := { imdb_id := none, tvdb_id := none } }).media_type = MediaType.Movie ∧
    (TmdbDetailsResponse.toMetadataResult
      { id := 6, title := none, name := some "F", release_date := none,
        first_air_date := none,
        external_ids := { imdb_id := none, tvdb_id := none } }).media_type = MediaType.Tv :=
  ⟨tmdb_media_type_spec.1 _ rfl,
   tmdb_media_type_spec.2.1 _ rfl,
   tmdb_media_type_spec.2.2.1 _ "person" rfl (by decide) (by decide),
   tmdb_media_type_spec.2.2.2.1 _ rfl,
   tmdb_media_type_spec.2.2.2.2.1 _ rfl,
   tmdb_media_type_spec.2.2.2.2.2 _ rfl⟩

/-- C9 fails as stated: a TMDB details response whose movie-style title is
present but empty (`Some("")`) wins over a populated series-style name — the
details conversion selects by presence, not by non-emptiness. -/
theorem tmdb_details_title_prefers_present_cex :
    (TmdbDetailsResponse.toMetadataResult
      { id := 1, title := some "", name := some "Breaking Bad",
        release_date := none, first_air_date := none,
        external_ids := { imdb_id := none, tvdb_id := none } }).title = "" ∧
    ("" : String) ≠ "Breaking Bad" := ⟨rfl, by decide⟩

/-- C9 amended: for search items the movie-style field wins exactly when it
is non-empty, with the series-style field as fallback; for details responses
the movie-style field wins whenever it is present — even when empty — then
the series-style field, then the empty string; no input makes either
conversion fail. -/
theorem tmdb_title_selection_spec :
    (∀ item : TmdbItem, item.title ≠ "" →
      (TmdbItem.toMetadataResult item).title = item.title) ∧
    (∀ item : TmdbItem, item.title = "" →
      (TmdbItem.toMetadataResult item).title = item.name) ∧
    (∀ (d : TmdbDetailsResponse) (t : String), d.title = some t →
      (TmdbDetailsResponse.toMetadataResult d).title = t) ∧
    (∀ (d : TmdbDetailsResponse) (n : String), d.title = none → d.name = some n →
      (TmdbDetailsResponse.toMetadataResult d).title = n) ∧
    (∀ d : TmdbDetailsResponse, d.title = none → d.name = none →
      (TmdbDetailsResponse.toMetadataResult d).title = "") := by
  refine ⟨?_, ?_, ?_, ?_, ?_⟩
  · intro item h
    simp [TmdbItem.toMetadataResult, String.isEmpty_iff, h]
  · intro item h
    simp [TmdbItem.toMetadataResult, String.isEmpty_iff, h]
  · intro d t h
    simp [TmdbDetailsResponse.toMetadataResult, h]
  · intro d n h1 h2
    simp [TmdbDetailsResponse.toMetadataResult, h1, h2]
  · intro d h1 h2
    simp [TmdbDetailsResponse.toMetadataResult, h1, h2]

/-- C9 witness: the amended statement evaluated on concrete items — a
non-empty movie title, an empty one falling back to the name, and the three
details shapes. -/
theorem tmdb_title_selection_spec_witness :
    (TmdbItem.toMetadataResult
      { id := 1, title := "Inception", name := "", release_date := none,
        first_air_date := none, media_type := none }).title = "Inception" ∧
    (TmdbItem.toMetadataResult
      { id := 2, title := "", name := "Breaking Bad", release_date := none,
        first_air_date := none, media_type := none }).title = "Breaking Bad" ∧
    (TmdbDetailsResponse.toMetadataResult
      { id := 3, title := some "Inception", name := none, release_date := none,
        first_air_date := none,
        external_ids := { imdb_id := none, tvdb_id := none } }).title = "Inception" ∧
    (TmdbDetailsResponse.toMetadataResult
      { id := 4, title := none, name := some "Breaking Bad", release_date := none,
        first_air_date := none,
        external_ids := { imdb_id := none, tvdb_id := none } }).title = "Breaking Bad" ∧
    (TmdbDetailsResponse.toMetadataResult
      { id := 5, title := none, name := none, release_date := none,
        first_air_date := none,
        external_ids := { imdb_id := none, tvdb_id := none } }).title = "" :=
  ⟨tmdb_title_selection_spec.1 _ (by decide),
   tmdb_title_selection_spec.2.1 _ rfl,
   tmdb_title_selection_spec.2.2.1 _ "Inception" rfl,
   tmdb_title_selection_spec.2.2.2.1 _ "Breaking Bad" rfl rfl,
   tmdb_title_selection_spec.2.2.2.2 _ rfl rfl⟩

/-! ## MediaIds entry shape (C7) -/

/-- The claim's invariant on one identifier entry: absent or non-empty. -/
def noneOrNonempty : Option String → Bool
  | none => true
  | some s => !s.isEmpty

/-- The claim's invariant over the four entries it names. -/
def mediaIdsOk (ids : MediaIds) : Bool :=
  noneOrNonempty ids.simkl && noneOrNonempty ids.tvdb &&
    noneOrNonempty ids.tmdb && noneOrNonempty ids.mal

theorem toString_int_isEmpty_false (i : Int) : (toString i).isEmpty = false := by
  rw [← Bool.not_eq_true, String.isEmpty_iff]
  exact int_toString_ne_empty i

theorem noneOrNonempty_toString (i : Int) :
    noneOrNonempty (some (toString i)) = true := by
  simp [noneOrNonempty, toString_int_isEmpty_false]

/-- C7 fails as stated: the Simkl conversion passes the provider's identifier
strings through verbatim, so a response whose `simkl` id is the empty string
produces `Some("")` — an empty-string entry, not `None`. -/
theorem simkl_empty_id_cex :
    (SimklSearchItem.toMetadataResult
      { title := "X", year := none,
        ids := { simkl := "", imdb := none, tmdb := none, tvdb := none } }).ids.simkl
      = some "" ∧
    mediaIdsOk (SimklSearchItem.toMetadataResult
      { title := "X", year := none,
        ids := { simkl := "", imdb := none, tmdb := none, tvdb := none } }).ids
      = false := ⟨rfl, rfl⟩

/-- C7 amended: the TMDB and TVDB conversions satisfy the invariant
unconditionally — their `tmdb`/`tvdb` entries render numeric ids, which are
never empty, and the remaining named entries stay `None`; the Simkl
conversions instead copy the provider's values verbatim (`simkl` always
wrapped in `Some`, `tmdb`/`tvdb` passed through, `mal` never set), so their
entries are exactly as absent or as empty as the provider's response. -/
theorem media_ids_entries_spec :
    (∀ item : TvdbSearchItem,
      mediaIdsOk (TvdbSearchItem.toMetadataResult item).ids = true) ∧
    (∀ item : TvdbDetailsItem,
      mediaIdsOk (TvdbDetailsItem.toMetadataResult item).ids = true) ∧
    (∀ item : TmdbItem,
      mediaIdsOk (TmdbItem.toMetadataResult item).ids = true) ∧
    (∀ d : TmdbDetailsResponse,
      mediaIdsOk (TmdbDetailsResponse.toMetadataResult d).ids = true) ∧
    (∀ s : SimklSearchItem,
      (SimklSearchItem.toMetadataResult s).ids.simkl = some s.ids.simkl ∧
      (SimklSearchItem.toMetadataResult s).ids.tmdb = s.ids.tmdb ∧
      (SimklSearchItem.toMetadataResult s).ids.tvdb = s.ids.tvdb ∧
      (SimklSearchItem.toMetadataResult s).ids.mal = none) ∧
    (∀ d : SimklDetailsResponse,
      (SimklDetailsResponse.toMetadataResult d).ids.simkl = some d.ids.simkl ∧
      (SimklDetailsResponse.toMetadataResult d).ids.tmdb = d.ids.tmdb ∧
      (SimklDetailsResponse.toMetadataResult d).ids.tvdb = d.ids.tvdb ∧
      (SimklDetailsResponse.toMetadataResult d).ids.mal = none) := by
  refine ⟨?_, ?_, ?_, ?_, fun s => ⟨rfl, rfl, rfl, rfl⟩, fun d => ⟨rfl, rfl, rfl, rfl⟩⟩
  · intro item
    simp [TvdbSearchItem.toMetadataResult, mediaIdsOk, noneOrNonempty_toString, noneOrNonempty, toString_int_isEmpty_false]
  · intro item
    simp [TvdbDetailsItem.toMetadataResult, mediaIdsOk, noneOrNonempty_toString, noneOrNonempty, toString_int_isEmpty_false]
  · intro item
    simp [TmdbItem.toMetadataResult, mediaIdsOk, noneOrNonempty_toString, noneOrNonempty, toString_int_isEmpty_false]
  · intro d
    cases h : d.external_ids.tvdb_id with
    | none =>
      simp [TmdbDetailsResponse.toMetadataResult, mediaIdsOk, noneOrNonempty_toString,
        noneOrNonempty, toString_int_isEmpty_false, h]
    | some i =>
      simp [TmdbDetailsResponse.toMetadataResult, mediaIdsOk, noneOrNonempty_toString,
        noneOrNonempty, toString_int_isEmpty_false, h]

/-! ## Login verification claims -/

/-- C5 fails as stated: a URL whose path matches a sign-in path is NOT
rejected when the full URL also contains `watch-history` (for instance in a
query parameter) — the manual check accepts it. -/
theorem manual_login_signin_accepted_cex :
    strContains "/ap/signin" "signin" = true ∧
    manual_login_verify
      { full := "https://www.amazon.com/ap/signin?openid.return_to=watch-history",
        path := "/ap/signin" } = Except.ok () := ⟨by decide, rfl⟩

/-- C5 amended: the manual check accepts exactly when the full URL contains
`watch-history`, regardless of the path; only when it does not is the path
consulted, a `signin`/`/login`/`/auth` path giving the log-in `AuthError` and
any other URL the navigate-here `AuthError`.  The automated check
(`is_logged_in`) gates on the full URL containing `watch-history` and not
containing `signin` or `auth` anywhere (it never looks at the path and never
tests `/login`), reporting not-logged-in when the gate fails. -/
theorem manual_login_verify_spec :
    (∀ u : Url, strContains u.full "watch-history" = true →
      manual_login_verify u = Except.ok ()) ∧
    (∀ u : Url, strContains u.full "watch-history" = false →
      (strContains u.path "signin" || strContains u.path "/login" ||
        strContains u.path "/auth") = true →
      manual_login_verify u =
        Except.error (AppError.authError "Please log in to Prime Video first")) ∧
    (∀ u : Url, strContains u.full "watch-history" = false →
      (strContains u.path "signin" || strContains u.path "/login" ||
        strContains u.path "/auth") = false →
      manual_login_verify u =
        Except.error
          (AppError.authError "Please navigate to your Prime Video watch history page")) ∧
    (∀ (env : BrowserEnv) (u : Url), env.currentUrl = Except.ok u →
      (strContains u.full "watch-history" && !(strContains u.full "signin") &&
        !(strContains u.full "auth")) = false →
      (is_logged_in env).1 = Except.ok false) := by
  refine ⟨?_, ?_, ?_, ?_⟩
  · intro u h
    simp [manual_login_verify, h]
  · intro u h1 h2
    simp [manual_login_verify, h1, h2]
  · intro u h1 h2
    simp [manual_login_verify, h1, h2]
  · intro env u hcu hgate
    simp [is_logged_in, hcu, hgate]

/-- C5 witness: the amended statement evaluated on a watch-history URL, a
sign-in URL, an unrelated URL, and a concrete browser environment sitting on
the sign-in URL. -/
theorem manual_login_verify_spec_witness :
    manual_login_verify
      { full := "https://www.primevideo.com/settings/watch-history",
        path := "/settings/watch-history" } = Except.ok () ∧
    manual_login_verify
      { full := "https://www.amazon.com/ap/signin", path := "/ap/signin" } =
      Except.error (AppError.authError "Please log in to Prime Video first") ∧
    manual_login_verify
      { full := "https://www.primevideo.com/storefront", path := "/storefront" } =
      Except.error
        (AppError.authError "Please navigate to your Prime Video watch history page") ∧
    (is_logged_in
      { goto := fun _ => Except.ok (), fill := fun _ _ => Except.ok (),
        click := fun _ => Except.ok (), find := fun _ => false,
        currentUrl := Except.ok
          { full := "https://www.amazon.com/ap/signin", path := "/ap/signin" } }).1 =
      Except.ok false :=
  ⟨manual_login_verify_spec.1 _ (by decide),
   manual_login_verify_spec.2.1 _ (by decide) (by decide),
   manual_login_verify_spec.2.2.1 _ (by decide) (by decide),
   manual_login_verify_spec.2.2.2 _ _ rfl (by decide)⟩

/-- C6 fails as stated: the email `a.dev@gmail.com` has domain suffix `.com`,
none of the regional suffixes, yet automated login selects the regional
endpoint `amazon.de`, because the source tests substring containment over
the whole email (`.dev` contains `.de`), not the domain suffix. -/
theorem amazon_domain_not_suffix_cex :
    strEndsWith "a.dev@gmail.com" ".com" = true ∧
    strEndsWith "a.dev@gmail.com" ".co.uk" = false ∧
    strEndsWith "a.dev@gmail.com" ".de" = false ∧
    strEndsWith "a.dev@gmail.com" ".it" = false ∧
    amazonDomainFor "a.dev@gmail.com" = "amazon.de" := by decide

/-- C6 amended: the regional endpoint is chosen by the first matching
substring test over the whole email, in source order — containing `.co.uk`
selects amazon.co.uk, else containing `.de` selects amazon.de, else
containing `.it` selects amazon.it, and an email containing none of the
three substrings anywhere selects amazon.com. -/
theorem amazon_domain_spec :
    (∀ email : String, ContainsStr email ".co.uk" →
      amazonDomainFor email = "amazon.co.uk") ∧
    (∀ email : String, ¬ ContainsStr email ".co.uk" → ContainsStr email ".de" →
      amazonDomainFor email = "amazon.de") ∧
    (∀ email : String, ¬ ContainsStr email ".co.uk" → ¬ ContainsStr email ".de" →
      ContainsStr email ".it" → amazonDomainFor email = "amazon.it") ∧
    (∀ email : String, ¬ ContainsStr email ".co.uk" → ¬ ContainsStr email ".de" →
      ¬ ContainsStr email ".it" → amazonDomainFor email = "amazon.com") := by
  refine ⟨?_, ?_, ?_, ?_⟩
  · intro email h
    simp [amazonDomainFor, (strContains_iff _ _).mpr h]
  · intro email h1 h2
    simp [amazonDomainFor, (strContains_eq_false_iff _ _).mpr h1,
      (strContains_iff _ _).mpr h2]
  · intro email h1 h2 h3
    simp [amazonDomainFor, (strContains_eq_false_iff _ _).mpr h1,
      (strContains_eq_false_iff _ _).mpr h2, (strContains_iff _ _).mpr h3]
  · intro email h1 h2 h3
    simp [amazonDomainFor, (strContains_eq_false_iff _ _).mpr h1,
      (strContains_eq_false_iff _ _).mpr h2, (strContains_eq_false_iff _ _).mpr h3]

/-- C6 witness: the amended statement evaluated on one email per branch. -/
theorem amazon_domain_spec_witness :
    amazonDomainFor "user@amazon.co.uk" = "amazon.co.uk" ∧
    amazonDomainFor "user@amazon.de" = "amazon.de" ∧
    amazonDomainFor "user@amazon.it" = "amazon.it" ∧
    amazonDomainFor "user@gmail.com" = "amazon.com" :=
  ⟨amazon_domain_spec.1 _ ⟨"user@amazon".toList, [], by decide⟩,
   amazon_domain_spec.2.1 _ ((strContains_eq_false_iff _ _).mp (by decide))
     ⟨"user@amazon".toList, [], by decide⟩,
   amazon_domain_spec.2.2.1 _ ((strContains_eq_false_iff _ _).mp (by decide))
     ((strContains_eq_false_iff _ _).mp (by decide))
     ⟨"user@amazon".toList, [], by decide⟩,
   amazon_domain_spec.2.2.2 _ ((strContains_eq_false_iff _ _).mp (by decide))
     ((strContains_eq_false_iff _ _).mp (by decide))
     ((strContains_eq_false_iff _ _).mp (by decide))⟩

/-- C8: when the form-driving steps succeed and the two-factor challenge
marker is found on the page, automated login fails with the 2FA `AuthError`
and its trace contains no `currentUrl` observation: the success verification
(`is_logged_in`) is never attempted. -/
theorem automated_login_2fa_fatal (env : BrowserEnv) (email password : String)
    (hgoto : env.goto ("https://www." ++ amazonDomainFor email ++ "/ap/signin") =
      Except.ok ())
    (hfill1 : env.fill emailFieldSelector email = Except.ok ())
    (hclick1 : env.click "#continue" = Except.ok ())
    (hfill2 : env.fill passwordFieldSelector password = Except.ok ())
    (hclick2 : env.click "#signInSubmit" = Except.ok ())
    (hmfa : env.find mfaSelector = true) :
    (automated_login env email password).1 =
      Except.error (AppError.authError "2FA detected - manual login required") ∧
    BrowserAction.currentUrl ∉ (automated_login env email password).2 := by
  constructor
  · simp [automated_login, hgoto, hfill1, hclick1, hfill2, hclick2, hmfa]
  · simp [automated_login, hgoto, hfill1, hclick1, hfill2, hclick2, hmfa]

/-- A browser whose every step succeeds and whose page shows the 2FA marker. -/
def env2fa : BrowserEnv :=
  { goto := fun _ => Except.ok ()
    fill := fun _ _ => Except.ok ()
    click := fun _ => Except.ok ()
    find := fun _ => true
    currentUrl := Except.ok { full := "", path := "" } }

/-- C8 witness: the theorem applied to the concrete 2FA-showing browser. -/
theorem automated_login_2fa_fatal_witness :
    (automated_login env2fa "user@amazon.com" "pw").1 =
      Except.error (AppError.authError "2FA detected - manual login required") ∧
    BrowserAction.currentUrl ∉ (automated_login env2fa "user@amazon.com" "pw").2 :=
  automated_login_2fa_fatal env2fa "user@amazon.com" "pw" rfl rfl rfl rfl rfl rfl

end PrimeVideoSimkl

